import Mathlib

/-!
Verification development for the report-downloader core of the repository
(`updating_csv_to_json.py`).  The Python source is shallowly embedded below:
pure helpers become Lean functions, the SQLite job ledger becomes a
`List Job` with the corresponding row operations, the aiohttp calls become
oracles (`Nat → MetaEvent`, `Nat → RepEvent`) giving the response to the
i-th HTTP request of a fetch loop, and the token file on disk becomes a
timeline `Nat → FileSt` observed at increasing logical instants (each
awaited operation advances the clock by one; the real sleep durations
`1.5 * 2^i` seconds only determine how long the task is suspended and are
abstracted to a single clock tick, since no property below depends on the
wall-clock length of a backoff sleep).  `json.loads` is a library call; a
response event carries its outcome: `parsed = none` models the body being
unparseable (the call raising), `parsed = some o` models it returning the
JSON object `o` (claims only exercise object-shaped bodies, modelled as
association lists).  A fetch whose credential-rotation wait never observes
a fresh token suspends forever; this is modelled by the `Option` result of
the fetch functions (`none` = the coroutine never returns within the wait
fuel supplied).
-/

namespace WBQ

/-! ### CONFIG constants (updating_csv_to_json.py lines 23-34) -/

def MAX_RETRIES : Nat := 5

def APPLY_AUTH_TO_REPORT_URL : Bool := false

/-! ### Python-truthiness helpers -/

/-- Python truthiness of an `Optional[str]`: `None` and `""` are falsy. -/
def pyFalsyOptStr : Option String → Bool
  | none => true
  | some s => s == ""

/-- The ASCII whitespace removed by `str.strip()` (the values actually
occurring in token files and CSV cells). -/
def isPyWhitespace (c : Char) : Bool :=
  c == ' ' || c == '\t' || c == '\n' || c == '\r' || c == '\x0b' || c == '\x0c'

/-- Python `str.strip()`. -/
def pyStrip (s : String) : String :=
  String.mk (((s.toList.dropWhile isPyWhitespace).reverse.dropWhile isPyWhitespace).reverse)

/-- Python `str.split(sep)` for a one-character separator. -/
def pySplitCharAux (sep : Char) : List Char → List Char → List (List Char)
  | [], acc => [acc.reverse]
  | c :: cs, acc =>
    if c = sep then acc.reverse :: pySplitCharAux sep cs []
    else pySplitCharAux sep cs (c :: acc)

def pySplitChar (sep : Char) (s : String) : List String :=
  (pySplitCharAux sep s.toList []).map String.mk

/-! ### JSON objects (the shape `json.loads` returns for the bodies the
claims exercise): an association list of string fields. -/

abbrev JObj := List (String × String)

/-- Python `dict.get(k)`: first binding wins, `None` when absent. -/
def jGet (o : JObj) (k : String) : Option String :=
  (o.find? (fun p => p.1 = k)).map (fun p => p.2)

/-- Python truthiness of the `meta` value in `process_one`
(`None` falsy, empty dict falsy). -/
def pyTruthyObj : Option JObj → Bool
  | none => false
  | some o => !o.isEmpty

/-! ### guess_ext (lines 51-58)

`SAFE_EXT_RE = re.compile(r"\.([A-Za-z0-9]{1,5})(?:\?|#|$)")`;
`re.search` finds the leftmost position at which the pattern matches, and
`{1,5}` is greedy with backtracking, so at a given `.` the lengths
5,4,3,2,1 are tried in that order, each requiring the group to be
alphanumeric and to be followed by `?`, `#` or the end of the string. -/

def isAlnumAscii (c : Char) : Bool := c.isAlpha || c.isDigit

/-- One candidate match of the group, of length exactly `k`, starting at
the head of `cs` (the characters after a `.`). -/
def extTryLen (cs : List Char) (k : Nat) : Option (List Char) :=
  let g := cs.take k
  let followOk : Bool :=
    match cs.drop k with
    | [] => true
    | c :: _ => c == '?' || c == '#'
  if g.length == k && g.all isAlnumAscii && followOk then some g else none

/-- Greedy `{1,5}`: longest first, backtracking downwards. -/
def extMatchAfterDot (cs : List Char) : Option (List Char) :=
  (extTryLen cs 5) <|> (extTryLen cs 4) <|> (extTryLen cs 3) <|>
    (extTryLen cs 2) <|> (extTryLen cs 1)

/-- `re.search`: leftmost `.` at which the rest of the pattern matches. -/
def reSearchExt : List Char → Option (List Char)
  | [] => none
  | c :: rest =>
    if c = '.' then
      match extMatchAfterDot rest with
      | some g => some g
      | none => reSearchExt rest
    else reSearchExt rest

def guess_ext (url : String) : String :=
  match reSearchExt url.toList with
  | some g => String.mk (('.' :: g).map Char.toLower)
  | none => ".json"

/-! ### Job ledger (SQLite table `jobs`, lines 79-126) -/

inductive JStatus
  | pending
  | failed
  | done
deriving DecidableEq, Repr

structure Job where
  guid : String
  url : String
  status : JStatus
  tries : Nat
  http_status_meta : Option Nat := none
  http_status_report : Option Nat := none
  path : Option String := none
  size_bytes : Option Nat := none
  updated_at : Nat
deriving DecidableEq, Repr

/-- `INSERT OR IGNORE INTO jobs(guid,url,status,updated_at)
VALUES(?,?,'pending',?)`: no-op when the primary key is already present
(`tries` takes its column default 0). -/
def db_upsert_job (jobs : List Job) (guid url : String) (now : Nat) : List Job :=
  if jobs.any (fun j => j.guid = guid) then jobs
  else jobs ++
    [{ guid := guid, url := url, status := JStatus.pending, tries := 0, updated_at := now }]

/-- `WHERE status IN ('pending','failed') AND tries < MAX_RETRIES`. -/
def claimable (j : Job) : Bool :=
  (decide (j.status = JStatus.pending) || decide (j.status = JStatus.failed)) &&
    decide (j.tries < MAX_RETRIES)

/-- `ORDER BY updated_at ASC` (SQLite leaves ties in an implementation
order; a stable sort realises one admissible order). -/
def updLE (a b : Job) : Prop := a.updated_at ≤ b.updated_at

instance : DecidableRel updLE := fun a b =>
  inferInstanceAs (Decidable (a.updated_at ≤ b.updated_at))

instance : IsTotal Job updLE :=
  ⟨fun a b => Nat.le_total a.updated_at b.updated_at⟩

instance : IsTrans Job updLE :=
  ⟨fun _ _ _ h h' => Nat.le_trans h h'⟩

/-- The rows selected by `db_next_batch` (filter, order, limit). -/
def db_next_batch_jobs (jobs : List Job) (n : Nat) : List Job :=
  (List.insertionSort updLE (jobs.filter claimable)).take n

/-- `SELECT guid, url, tries FROM jobs … LIMIT ?` (lines 104-111). -/
def db_next_batch (jobs : List Job) (n : Nat) : List (String × String × Nat) :=
  (db_next_batch_jobs jobs n).map (fun j => (j.guid, j.url, j.tries))

/-- `UPDATE jobs SET <kwargs>, updated_at=? WHERE guid=?`: the keyword
fields of one concrete call are represented by the row-update `f`. -/
def db_mark (jobs : List Job) (guid : String) (f : Job → Job) (now : Nat) : List Job :=
  jobs.map (fun j => if j.guid = guid then { f j with updated_at := now } else j)

/-- `UPDATE jobs SET tries = tries + 1, updated_at=? WHERE guid=?`. -/
def db_inc_try (jobs : List Job) (guid : String) (now : Nat) : List Job :=
  jobs.map (fun j =>
    if j.guid = guid then { j with tries := j.tries + 1, updated_at := now } else j)

/-! ### FileTokenManager (lines 130-164)

The token file on disk is a timeline `world : Nat → FileSt`; the manager's
mutable cache is threaded explicitly. -/

structure FileSt where
  present : Bool
  content : String
  mtime : Nat
deriving DecidableEq, Repr

structure TMState where
  cachedToken : Option String := none
  cachedMtime : Nat := 0
deriving DecidableEq, Repr

/-- `_read_now`: `read_text().strip()`, `token or None`. -/
def tm_read_now (fs : FileSt) : Option String :=
  if fs.present then
    (let t := pyStrip fs.content
     if t = "" then none else some t)
  else none

/-- `get`: stat the file (missing file gives mtime 0.0), re-read only when
nothing is cached or the mtime changed, cache only a truthy token. -/
def tm_get (fs : FileSt) (st : TMState) : Option String × TMState :=
  let mtime := if fs.present then fs.mtime else 0
  if st.cachedToken.isNone || (mtime != st.cachedMtime) then
    match tm_read_now fs with
    | some tok => (some tok, { cachedToken := some tok, cachedMtime := mtime })
    | none => (st.cachedToken, st)
  else (st.cachedToken, st)

/-- Python `tok != old_token` where `tok` is a `str` and `old_token` an
`Optional[str]` (a string never equals `None`). -/
def pyStrNeOpt (v : String) : Option String → Bool
  | none => true
  | some o => v != o

/-- `wait_for_update(old_token)`: sleep one tick, `get`, return the token
as soon as it is truthy and differs from `old_token`; `fuel` bounds the
number of polls, `none` meaning the coroutine is still suspended after
`fuel` polls (the real loop has no timeout).  Returns the token, the cache
state and the clock at the instant of return. -/
def tm_wait_for_update (world : Nat → FileSt) (old : Option String) :
    TMState → Nat → Nat → Option (String × TMState × Nat)
  | _, _, 0 => none
  | st, t, fuel + 1 =>
    let g := tm_get (world (t + 1)) st
    match g.1 with
    | some v =>
      if v != "" && pyStrNeOpt v old then some (v, g.2, t + 1)
      else tm_wait_for_update world old g.2 (t + 1) fuel
    | none => tm_wait_for_update world old g.2 (t + 1) fuel

/-! ### fetch_metadata (lines 168-198) -/

/-- Outcome of the i-th metadata HTTP request: a response (with the raw
body text and the result of `json.loads` on it) or a transport
exception. -/
inductive MetaEvent
  | resp (status : Nat) (body : String) (parsed : Option JObj)
  | exn
deriving Repr

structure MetaRes where
  status : Option Nat
  meta : Option JObj
  body : Option String
  /-- number of HTTP requests actually issued (observation of the trace) -/
  attempts : Nat
  /-- bearer token attached to each request, in order (observation) -/
  tokensUsed : List String
  /-- token-manager cache when the call returned -/
  tmFinal : TMState
  /-- clock when the call returned -/
  tFinal : Nat
deriving DecidableEq, Repr

def fetch_metadata_loop (world : Nat → FileSt) (mev : Nat → MetaEvent) (wfuel : Nat) :
    Nat → Nat → Option String → TMState → Nat → List String → Option MetaRes
  | 0, t, _, st, attempts, toks =>
    some ⟨none, none, none, attempts, toks.reverse, st, t⟩
  | rem + 1, t, tokenUsed, st, attempts, toks =>
    let g := tm_get (world t) st
    let resolved : Option (String × TMState × Nat) :=
      if pyFalsyOptStr g.1 then tm_wait_for_update world tokenUsed g.2 t wfuel
      else g.1.map (fun v => (v, g.2, t))
    match resolved with
    | none => none
    | some (token, st2, t2) =>
      let attempts2 := attempts + 1
      let toks2 := token :: toks
      match mev attempts with
      | MetaEvent.exn =>
        fetch_metadata_loop world mev wfuel rem (t2 + 2) tokenUsed st2 attempts2 toks2
      | MetaEvent.resp s body parsed =>
        if s = 401 ∨ s = 403 then
          match tm_wait_for_update world (some token) st2 (t2 + 1) wfuel with
          | none => none
          | some w =>
            fetch_metadata_loop world mev wfuel rem (w.2.2 + 1) (some token) w.2.1
              attempts2 toks2
        else if s = 429 ∨ s = 500 ∨ s = 502 ∨ s = 503 ∨ s = 504 then
          fetch_metadata_loop world mev wfuel rem (t2 + 2) tokenUsed st2 attempts2 toks2
        else if s ≠ 200 then
          some ⟨some s, none, some body, attempts2, toks2.reverse, st2, t2 + 1⟩
        else
          match parsed with
          | some m => some ⟨some s, some m, some body, attempts2, toks2.reverse, st2, t2 + 1⟩
          | none =>
            fetch_metadata_loop world mev wfuel rem (t2 + 2) tokenUsed st2 attempts2 toks2

def fetch_metadata (world : Nat → FileSt) (mev : Nat → MetaEvent) (wfuel : Nat)
    (st0 : TMState) (t0 : Nat) : Option MetaRes :=
  let g := tm_get (world t0) st0
  fetch_metadata_loop world mev wfuel MAX_RETRIES (t0 + 1) g.1 g.2 0 []

/-! ### fetch_report (lines 200-228) -/

inductive RepEvent
  | resp (status : Nat) (content : List Nat)
  | exn
deriving Repr

structure RepRes where
  status : Option Nat
  content : Option (List Nat)
  /-- number of HTTP requests actually issued (observation of the trace) -/
  attempts : Nat
  /-- `Authorization` header value of each request, in order (observation) -/
  authUsed : List (Option String)
deriving DecidableEq, Repr

def fetch_report_loop (world : Nat → FileSt) (rev : Nat → RepEvent) (wfuel : Nat)
    (needs_auth : Bool) :
    Nat → Nat → Option String → TMState → Nat → List (Option String) → Option RepRes
  | 0, _, _, _, attempts, auths => some ⟨none, none, attempts, auths.reverse⟩
  | rem + 1, t, tokenUsed, st, attempts, auths =>
    let hdr : Option (Option String × TMState × Nat) :=
      if needs_auth then
        let g := tm_get (world t) st
        if pyFalsyOptStr g.1 then
          (tm_wait_for_update world tokenUsed g.2 t wfuel).map
            (fun w => (some ("Bearer " ++ w.1), w.2.1, w.2.2))
        else g.1.map (fun v => (some ("Bearer " ++ v), g.2, t))
      else some (none, st, t)
    match hdr with
    | none => none
    | some (auth, st2, t2) =>
      let attempts2 := attempts + 1
      let auths2 := auth :: auths
      match rev attempts with
      | RepEvent.exn =>
        fetch_report_loop world rev wfuel needs_auth rem (t2 + 2) tokenUsed st2
          attempts2 auths2
      | RepEvent.resp s content =>
        if (s = 401 ∨ s = 403) ∧ needs_auth = true then
          -- token_used = headers.get("Authorization")  (the full header value)
          match tm_wait_for_update world auth st2 (t2 + 1) wfuel with
          | none => none
          | some w =>
            fetch_report_loop world rev wfuel needs_auth rem (w.2.2 + 1) auth w.2.1
              attempts2 auths2
        else if s = 429 ∨ s = 500 ∨ s = 502 ∨ s = 503 ∨ s = 504 then
          fetch_report_loop world rev wfuel needs_auth rem (t2 + 2) tokenUsed st2
            attempts2 auths2
        else some ⟨some s, some content, attempts2, auths2.reverse⟩

def fetch_report (world : Nat → FileSt) (rev : Nat → RepEvent) (wfuel : Nat)
    (needs_auth : Bool) (st0 : TMState) (t0 : Nat) : Option RepRes :=
  let g := tm_get (world t0) st0
  fetch_report_loop world rev wfuel needs_auth MAX_RETRIES (t0 + 1) g.1 g.2 0 []

/-! ### process_one (lines 237-261)

The control flow of one worker pass over one job, with every externally
visible effect reified: which branch returned, which report URL Stage B
was invoked on, which artifact was written.  (`url` is a parameter of the
Python function but is never used in its body; the metadata request URL
`base_url + guid` lives inside the HTTP oracle.) -/

inductive Outcome
  | metaFailed (status : Option Nat) (body : Option String)
  | missingReportUrl
  | reportFailed (reportUrl : String) (status : Option Nat)
  | ok (reportUrl : String) (path : String) (content : List Nat)
deriving DecidableEq, Repr

def process_one (root guid : String) (world : Nat → FileSt) (mev : Nat → MetaEvent)
    (rev : Nat → RepEvent) (wfuel : Nat) (st0 : TMState) (t0 : Nat) : Option Outcome :=
  match fetch_metadata world mev wfuel st0 t0 with
  | none => none
  | some mres =>
    -- if status_meta != 200 or not meta
    if mres.status ≠ some 200 ∨ pyTruthyObj mres.meta = false then
      some (Outcome.metaFailed mres.status mres.body)
    else
      -- report_url = meta.get("reportUrl"); if not report_url
      match jGet (mres.meta.getD []) "reportUrl" with
      | none => some Outcome.missingReportUrl
      | some u =>
        if u = "" then some Outcome.missingReportUrl
        else
          match fetch_report world rev wfuel APPLY_AUTH_TO_REPORT_URL
              mres.tmFinal mres.tFinal with
          | none => none
          | some rres =>
            -- if status_rep != 200 or content is None
            if rres.status ≠ some 200 ∨ rres.content = none then
              some (Outcome.reportFailed u rres.status)
            else
              some (Outcome.ok u (root ++ "/reports/" ++ guid ++ guess_ext u)
                (rres.content.getD []))

/-- The `db_mark` call `process_one` issues for each outcome. -/
def applyOutcome (jobs : List Job) (guid : String) (o : Outcome) (now : Nat) : List Job :=
  match o with
  | Outcome.metaFailed st _ =>
    db_mark jobs guid
      (fun j => { j with status := JStatus.failed, http_status_meta := st }) now
  | Outcome.missingReportUrl =>
    db_mark jobs guid (fun j => { j with status := JStatus.failed }) now
  | Outcome.reportFailed _ st =>
    db_mark jobs guid
      (fun j => { j with status := JStatus.failed, http_status_report := st }) now
  | Outcome.ok _ path content =>
    db_mark jobs guid
      (fun j => { j with status := JStatus.done, path := some path,
                         size_bytes := some content.length }) now

/-! ### save_error_json (lines 64-75) -/

structure ErrorRecord where
  error : String
  step : String
  status_code : Option Nat
  body : Option String
  time : Nat
deriving DecidableEq, Repr

/-- The JSON payload written by `save_error_json` (body truncated to its
first 1000 characters; a falsy body — `None` or `""` — is recorded as
`null`). -/
def save_error_json (message step : String) (status : Option Nat)
    (body : Option String) (now : Nat) : ErrorRecord :=
  { error := message, step := step, status_code := status,
    body := match body with
      | some b => if b = "" then none else some (String.mk (b.toList.take 1000))
      | none => none,
    time := now }

/-- The `save_error_json` call `process_one` issues for each outcome
(its argument lists copied from lines 241, 247 and 253; the report-stage
call passes neither a status nor a body). -/
def errorOf (o : Outcome) (now : Nat) : Option ErrorRecord :=
  match o with
  | Outcome.metaFailed st body =>
    some (save_error_json "Metadata fetch failed" "metadata" st body now)
  | Outcome.missingReportUrl =>
    some (save_error_json "Missing reportUrl" "metadata" none none now)
  | Outcome.reportFailed _ _ =>
    some (save_error_json "Download failed" "report" none none now)
  | Outcome.ok _ _ _ => none

/-- The artifact file written by `process_one` (path, bytes). -/
def artifactOf (o : Outcome) : Option (String × List Nat) :=
  match o with
  | Outcome.ok _ p c => some (p, c)
  | _ => none

/-- One `run_one` of the worker pool (lines 268-271): increment `tries`,
run `process_one`, apply its ledger update.  `none` when the pass never
returns (a rotation wait suspends forever). -/
def run_one (root : String) (jobs : List Job) (guid : String) (world : Nat → FileSt)
    (mev : Nat → MetaEvent) (rev : Nat → RepEvent) (wfuel : Nat) (st0 : TMState)
    (t0 : Nat) (now : Nat) : Option (List Job × Outcome) :=
  let jobs1 := db_inc_try jobs guid now
  (process_one root guid world mev rev wfuel st0 t0).map
    (fun o => (applyOutcome jobs1 guid o (now + 1), o))

/-! ### extract_guid_from_url (lines 230-233) and the path component of
Python's `urllib.parse.urlparse` (stdlib, modelled after CPython's
`urlsplit`/`urlparse`: fragment after scheme and netloc, query after
fragment, then the `;params` split of `urlparse`). -/

def schemeChar (c : Char) : Bool :=
  c.isAlpha || c.isDigit || c == '+' || c == '-' || c == '.'

/-- Drop `scheme:` when the text before the first `:` is a valid scheme. -/
def stripScheme (cs : List Char) : List Char :=
  match cs.findIdx? (fun c => c = ':') with
  | none => cs
  | some i =>
    if 0 < i ∧ (cs.headD ' ').isAlpha = true ∧ (cs.take i).all schemeChar = true then
      cs.drop (i + 1)
    else cs

/-- Drop `//netloc` (netloc ends at the first `/`, `?` or `#`). -/
def stripNetloc (cs : List Char) : List Char :=
  match cs with
  | '/' :: '/' :: rest => rest.dropWhile (fun c => c ≠ '/' ∧ c ≠ '?' ∧ c ≠ '#')
  | _ => cs

/-- Keep what precedes the first occurrence of `stop`. -/
def takeBefore (stop : Char) (cs : List Char) : List Char :=
  cs.takeWhile (fun c => c ≠ stop)

/-- `urlparse`: split `;params` off the last path segment. -/
def stripParams (cs : List Char) : List Char :=
  if cs.contains ';' then
    if cs.contains '/' then
      let seg := (cs.reverse.takeWhile (fun c => c ≠ '/')).reverse
      if seg.contains ';' then
        cs.take (cs.length - seg.length) ++ takeBefore ';' seg
      else cs
    else takeBefore ';' cs
  else cs

/-- `urlparse(url).path` (models the Python stdlib call). -/
def urlparse_path (url : String) : String :=
  String.mk (stripParams (takeBefore '?' (takeBefore '#'
    (stripNetloc (stripScheme url.toList)))))

/-- `extract_guid_from_url`: last non-empty `/`-segment of the path. -/
def extract_guid_from_url (url : String) : Option String :=
  ((pySplitChar '/' (urlparse_path url)).filter (fun s => s ≠ "")).getLast?

/-! ### seed_jobs_from_csv (lines 285-301)

The CSV is modelled post-`csv.reader`: a list of rows, each a list of
cell strings. -/

def seed_step (col : Nat) (now : Nat) (acc : List Job × List String × Nat)
    (row : List String) : List Job × List String × Nat :=
  let url := pyStrip (if row.length > col then row.getD col "" else "")
  if url = "" ∨ url ∈ acc.2.1 then acc
  else
    match extract_guid_from_url url with
    | none => acc
    | some guid => (db_upsert_job acc.1 guid url now, url :: acc.2.1, acc.2.2 + 1)

/-- Returns the ledger after seeding and the `added` counter. -/
def seed_jobs_from_csv (jobs : List Job) (rows : List (List String)) (col : Nat)
    (now : Nat) : List Job × Nat :=
  let r := rows.foldl (seed_step col now) (jobs, [], 0)
  (r.1, r.2.2)

/-! ### Shared scenario infrastructure for the theorems -/

/-- A token-file timeline on which the same valid token is present at every
instant (the benign environment for claims that are not about credentials). -/
def goodWorld : Nat → FileSt := fun _ => ⟨true, "tokA", 0⟩

/-- The token-manager cache after one `get` against `goodWorld`. -/
def tmA : TMState := ⟨some "tokA", 0⟩

lemma fetch_metadata_good_start (mev : Nat → MetaEvent) (wfuel : Nat) :
    fetch_metadata goodWorld mev wfuel {} 0 =
      fetch_metadata_loop goodWorld mev wfuel (4 + 1) 1 (some "tokA") tmA 0 [] := rfl

/-- One iteration of the metadata retry loop under `goodWorld` (the cached
token is valid, so no rotation wait happens before the request). -/
lemma fml_step (mev : Nat → MetaEvent) (wfuel rem t : Nat) (tu : Option String)
    (a : Nat) (toks : List String) :
    fetch_metadata_loop goodWorld mev wfuel (rem + 1) t tu tmA a toks =
      match mev a with
      | MetaEvent.exn =>
        fetch_metadata_loop goodWorld mev wfuel rem (t + 2) tu tmA (a + 1) ("tokA" :: toks)
      | MetaEvent.resp s body parsed =>
        if s = 401 ∨ s = 403 then
          match tm_wait_for_update goodWorld (some "tokA") tmA (t + 1) wfuel with
          | none => none
          | some w =>
            fetch_metadata_loop goodWorld mev wfuel rem (w.2.2 + 1) (some "tokA") w.2.1
              (a + 1) ("tokA" :: toks)
        else if s = 429 ∨ s = 500 ∨ s = 502 ∨ s = 503 ∨ s = 504 then
          fetch_metadata_loop goodWorld mev wfuel rem (t + 2) tu tmA (a + 1) ("tokA" :: toks)
        else if s ≠ 200 then
          some ⟨some s, none, some body, a + 1, ("tokA" :: toks).reverse, tmA, t + 1⟩
        else
          match parsed with
          | some m =>
            some ⟨some s, some m, some body, a + 1, ("tokA" :: toks).reverse, tmA, t + 1⟩
          | none =>
            fetch_metadata_loop goodWorld mev wfuel rem (t + 2) tu tmA (a + 1) ("tokA" :: toks) := rfl

/-- Receiving a status outside the two retry sets, other than 200, returns
at once with that status. -/
lemma fml_return_other (mev : Nat → MetaEvent) (wfuel rem t a : Nat) (tu : Option String)
    (toks : List String) (s : Nat) (body : String) (parsed : Option JObj)
    (hev : mev a = MetaEvent.resp s body parsed)
    (h1 : ¬(s = 401 ∨ s = 403))
    (h2 : ¬(s = 429 ∨ s = 500 ∨ s = 502 ∨ s = 503 ∨ s = 504))
    (h3 : s ≠ 200) :
    fetch_metadata_loop goodWorld mev wfuel (rem + 1) t tu tmA a toks =
      some ⟨some s, none, some body, a + 1, ("tokA" :: toks).reverse, tmA, t + 1⟩ := by
  simp only [fml_step, hev]
  rw [if_neg h1, if_neg h2, if_pos h3]

/-- Receiving 200 with a body `json.loads` parses returns at once. -/
lemma fml_return_200 (mev : Nat → MetaEvent) (wfuel rem t a : Nat) (tu : Option String)
    (toks : List String) (body : String) (m : JObj)
    (hev : mev a = MetaEvent.resp 200 body (some m)) :
    fetch_metadata_loop goodWorld mev wfuel (rem + 1) t tu tmA a toks =
      some ⟨some 200, some m, some body, a + 1, ("tokA" :: toks).reverse, tmA, t + 1⟩ := by
  simp only [fml_step, hev]
  rw [if_neg (by decide : ¬((200 : Nat) = 401 ∨ (200 : Nat) = 403))]
  rw [if_neg (by decide :
    ¬((200 : Nat) = 429 ∨ (200 : Nat) = 500 ∨ (200 : Nat) = 502 ∨
      (200 : Nat) = 503 ∨ (200 : Nat) = 504))]
  rw [if_neg (by decide : ¬((200 : Nat) ≠ 200))]

lemma fetch_metadata_good_other (mev : Nat → MetaEvent) (wfuel : Nat) (s : Nat)
    (body : String) (parsed : Option JObj)
    (hev : mev 0 = MetaEvent.resp s body parsed)
    (h1 : ¬(s = 401 ∨ s = 403))
    (h2 : ¬(s = 429 ∨ s = 500 ∨ s = 502 ∨ s = 503 ∨ s = 504))
    (h3 : s ≠ 200) :
    fetch_metadata goodWorld mev wfuel {} 0 =
      some ⟨some s, none, some body, 1, ["tokA"], tmA, 2⟩ := by
  rw [fetch_metadata_good_start]
  exact fml_return_other mev wfuel 4 1 0 (some "tokA") [] s body parsed hev h1 h2 h3

lemma fetch_metadata_good_200 (mev : Nat → MetaEvent) (wfuel : Nat)
    (body : String) (m : JObj)
    (hev : mev 0 = MetaEvent.resp 200 body (some m)) :
    fetch_metadata goodWorld mev wfuel {} 0 =
      some ⟨some 200, some m, some body, 1, ["tokA"], tmA, 2⟩ := by
  rw [fetch_metadata_good_start]
  exact fml_return_200 mev wfuel 4 1 0 (some "tokA") [] body m hev

/-- One iteration of the content retry loop with auth disabled (the
default `APPLY_AUTH_TO_REPORT_URL = False`). -/
lemma frl_step_noauth (rev : Nat → RepEvent) (wfuel rem t : Nat) (tu : Option String)
    (st : TMState) (a : Nat) (auths : List (Option String)) :
    fetch_report_loop goodWorld rev wfuel false (rem + 1) t tu st a auths =
      match rev a with
      | RepEvent.exn =>
        fetch_report_loop goodWorld rev wfuel false rem (t + 2) tu st (a + 1) (none :: auths)
      | RepEvent.resp s content =>
        if (s = 401 ∨ s = 403) ∧ false = true then
          match tm_wait_for_update goodWorld none st (t + 1) wfuel with
          | none => none
          | some w =>
            fetch_report_loop goodWorld rev wfuel false rem (w.2.2 + 1) none w.2.1
              (a + 1) (none :: auths)
        else if s = 429 ∨ s = 500 ∨ s = 502 ∨ s = 503 ∨ s = 504 then
          fetch_report_loop goodWorld rev wfuel false rem (t + 2) tu st (a + 1) (none :: auths)
        else some ⟨some s, some content, a + 1, (none :: auths).reverse⟩ := rfl

lemma frl_return_noauth (rev : Nat → RepEvent) (wfuel rem t a : Nat) (tu : Option String)
    (st : TMState) (auths : List (Option String)) (s : Nat) (content : List Nat)
    (hev : rev a = RepEvent.resp s content)
    (h2 : ¬(s = 429 ∨ s = 500 ∨ s = 502 ∨ s = 503 ∨ s = 504)) :
    fetch_report_loop goodWorld rev wfuel false (rem + 1) t tu st a auths =
      some ⟨some s, some content, a + 1, (none :: auths).reverse⟩ := by
  simp only [frl_step_noauth, hev]
  rw [if_neg (fun h => Bool.false_ne_true h.2), if_neg h2]

/-- A response outside the transient-retry set ends the (auth-free)
content fetch at once; started from the state `process_one` hands over
after a first-request metadata success. -/
lemma fetch_report_good_ret (rev : Nat → RepEvent) (wfuel : Nat) (s : Nat)
    (content : List Nat) (hev : rev 0 = RepEvent.resp s content)
    (h2 : ¬(s = 429 ∨ s = 500 ∨ s = 502 ∨ s = 503 ∨ s = 504)) :
    fetch_report goodWorld rev wfuel false tmA 2 =
      some ⟨some s, some content, 1, [none]⟩ := by
  rw [show fetch_report goodWorld rev wfuel false tmA 2 =
      fetch_report_loop goodWorld rev wfuel false (4 + 1) 3 (some "tokA") tmA 0 [] from rfl]
  exact frl_return_noauth rev wfuel 4 3 0 (some "tokA") tmA [] s content hev h2

/-- `process_one` after a first-request metadata success whose object
carries the URL under the exact key `reportUrl`. -/
lemma process_one_good_midkey (root guid : String) (mev : Nat → MetaEvent)
    (rev : Nat → RepEvent) (wfuel : Nat) (body U : String)
    (hmev : mev 0 = MetaEvent.resp 200 body (some [("reportUrl", U)])) :
    process_one root guid goodWorld mev rev wfuel {} 0 =
      (if U = "" then some Outcome.missingReportUrl
       else
         match fetch_report goodWorld rev wfuel false tmA 2 with
         | none => none
         | some rres =>
           if rres.status ≠ some 200 ∨ rres.content = none then
             some (Outcome.reportFailed U rres.status)
           else
             some (Outcome.ok U (root ++ "/reports/" ++ guid ++ guess_ext U)
               (rres.content.getD []))) := by
  unfold process_one
  rw [fetch_metadata_good_200 mev wfuel body [("reportUrl", U)] hmev]
  rfl

lemma process_one_good_ok (root guid : String) (mev : Nat → MetaEvent)
    (rev : Nat → RepEvent) (wfuel : Nat) (body U : String) (B : List Nat)
    (hmev : mev 0 = MetaEvent.resp 200 body (some [("reportUrl", U)]))
    (hrev : rev 0 = RepEvent.resp 200 B) (hU : U ≠ "") :
    process_one root guid goodWorld mev rev wfuel {} 0 =
      some (Outcome.ok U (root ++ "/reports/" ++ guid ++ guess_ext U) B) := by
  rw [process_one_good_midkey root guid mev rev wfuel body U hmev, if_neg hU,
    fetch_report_good_ret rev wfuel 200 B hrev (by decide)]
  rfl

/-! ### Claim C1 -/

def c1mev : Nat → MetaEvent := fun i =>
  if i = 0 then MetaEvent.resp 404 "nf" none
  else MetaEvent.resp 200 "good" (some [("reportUrl", "https://cdn/x.pdf")])

def c1rev : Nat → RepEvent := fun i =>
  if i = 0 then RepEvent.resp 404 [9] else RepEvent.resp 200 [1, 2]

/-- C1 (counterexample): a metadata status of 404 — non-200, outside both
retry sets — makes `fetch_metadata` return after this single request
(`attempts = 1`) even though every remaining attempt would have yielded a
successful 200; `fetch_report` behaves the same way.  The claimed
behaviour (exhaust the remaining retry attempts through the backoff loop
before reporting the last status) is therefore false on the code. -/
theorem c1_counterexample :
    (fetch_metadata goodWorld c1mev 2 {} 0).map (fun r => (r.status, r.attempts)) =
      some (some 404, 1) ∧
    (fetch_report goodWorld c1rev 2 APPLY_AUTH_TO_REPORT_URL {} 0).map
      (fun r => (r.status, r.attempts)) = some (some 404, 1) := by decide

/-- C1 (amended): for both Stage A and Stage B, an HTTP status other than
200 that is outside both the transient set 429/500/502/503/504 and the
credential set 401/403 makes the fetch return immediately on the first such
response, reporting that status code, with exactly one request issued —
it does not exhaust the remaining attempts. -/
theorem c1_theorem (s : Nat) (body : String) (parsed : Option JObj)
    (content : List Nat) (mev : Nat → MetaEvent) (rev : Nat → RepEvent) (wfuel : Nat)
    (hmev : mev 0 = MetaEvent.resp s body parsed)
    (hrev : rev 0 = RepEvent.resp s content)
    (h401 : s ≠ 401) (h403 : s ≠ 403) (h429 : s ≠ 429) (h500 : s ≠ 500)
    (h502 : s ≠ 502) (h503 : s ≠ 503) (h504 : s ≠ 504) (h200 : s ≠ 200) :
    fetch_metadata goodWorld mev wfuel {} 0 =
      some ⟨some s, none, some body, 1, ["tokA"], tmA, 2⟩ ∧
    fetch_report goodWorld rev wfuel APPLY_AUTH_TO_REPORT_URL tmA 2 =
      some ⟨some s, some content, 1, [none]⟩ := by
  constructor
  · exact fetch_metadata_good_other mev wfuel s body parsed hmev
      (fun h => h.elim h401 h403)
      (fun h => h.elim h429 (fun h2 => h2.elim h500 (fun h3 => h3.elim h502
        (fun h4 => h4.elim h503 h504)))) h200
  · exact fetch_report_good_ret rev wfuel s content hrev
      (fun h => h.elim h429 (fun h2 => h2.elim h500 (fun h3 => h3.elim h502
        (fun h4 => h4.elim h503 h504))))

/-- C1 (witness): the amended theorem applied at status 404. -/
theorem c1_witness :
    fetch_metadata goodWorld (fun _ => MetaEvent.resp 404 "nf" none) 2 {} 0 =
      some ⟨some 404, none, some "nf", 1, ["tokA"], tmA, 2⟩ ∧
    fetch_report goodWorld (fun _ => RepEvent.resp 404 [9]) 2 APPLY_AUTH_TO_REPORT_URL tmA 2 =
      some ⟨some 404, some [9], 1, [none]⟩ :=
  c1_theorem 404 "nf" none [9] (fun _ => MetaEvent.resp 404 "nf" none)
    (fun _ => RepEvent.resp 404 [9]) 2 rfl rfl (by decide) (by decide) (by decide)
    (by decide) (by decide) (by decide) (by decide) (by decide)

/-! ### Claim C2 -/

def c2mev : Nat → MetaEvent := fun _ => MetaEvent.resp 500 "server error" none

def c2rev : Nat → RepEvent := fun _ => RepEvent.exn

def c2Job0 : Job :=
  ⟨"abc123", "https://host/reports/abc123", JStatus.pending, 0, none, none, none, none, 0⟩

/-- Worker passes over the job under an all-500 metadata endpoint: pass
number k increments `tries` at time 2k+1 and records the outcome at
2k+2. -/
def c2Iter : Nat → Option (List Job)
  | 0 => some [c2Job0]
  | k + 1 =>
    (c2Iter k).bind (fun js =>
      (run_one "all_downloads" js "abc123" goodWorld c2mev c2rev 2 {} 0
        (2 * k + 1)).map Prod.fst)

/-- C2 (counterexample): five consecutive 500 responses are consumed by the
in-call retry loop of a single processing pass (`attempts = 5`), which then
returns `(None, None, None)`; the pass leaves the job `failed` with
`tries = 1` — not 5 — and `http_status_meta` NULL — not 500. -/
theorem c2_counterexample :
    (fetch_metadata goodWorld c2mev 2 {} 0).map (fun r => (r.status, r.attempts)) =
      some (none, 5) ∧
    c2Iter 1 =
      some [{ c2Job0 with status := JStatus.failed, tries := 1, updated_at := 2 }] ∧
    ({ c2Job0 with status := JStatus.failed, tries := 1, updated_at := 2 } : Job).tries ≠ 5 ∧
    ({ c2Job0 with status := JStatus.failed, tries := 1, updated_at := 2 } : Job).http_status_meta ≠
      some 500 := by decide

/-- C2 (amended): under a metadata endpoint that answers 500 to every
request, each processing pass consumes five consecutive 500 responses,
marks the job `failed` with `http_status_meta` NULL (the exhausted retry
loop reports no status code) and increments `tries` by one; after five such
passes — twenty-five 500 responses — the job is `failed` with `tries = 5`
and is excluded from every later claim batch. -/
theorem c2_theorem :
    c2Iter 1 =
      some [{ c2Job0 with status := JStatus.failed, tries := 1, updated_at := 2 }] ∧
    c2Iter 5 =
      some [{ c2Job0 with status := JStatus.failed, tries := 5, updated_at := 10 }] ∧
    (fetch_metadata goodWorld c2mev 2 {} 0).map (fun r => r.attempts) = some 5 ∧
    claimable { c2Job0 with status := JStatus.failed, tries := 5, updated_at := 10 } = false ∧
    db_next_batch_jobs
      [{ c2Job0 with status := JStatus.failed, tries := 5, updated_at := 10 }] 10 = [] ∧
    claimable { c2Job0 with status := JStatus.failed, tries := 1, updated_at := 2 } = true := by
  decide

/-! ### Claim C3 -/

def c3mevVariant : Nat → MetaEvent := fun _ =>
  MetaEvent.resp 200 "metabody" (some [("ReportUrl", "https://cdn/x.pdf")])

def c3rev : Nat → RepEvent := fun _ => RepEvent.resp 200 [7]

/-- C3 (counterexample): a 200 metadata body that carries the content URL
under the field-name variant `ReportUrl` does not lead to a Stage B fetch:
the pass ends in the missing-reportUrl failure, so no field-name variant
other than the exact `reportUrl` is accepted. -/
theorem c3_counterexample :
    process_one "all_downloads" "abc123" goodWorld c3mevVariant c3rev 2 {} 0 =
      some Outcome.missingReportUrl ∧
    artifactOf Outcome.missingReportUrl = none ∧
    errorOf Outcome.missingReportUrl 3 =
      some ⟨"Missing reportUrl", "metadata", none, none, 3⟩ := by decide

/-- C3 (amended): on an HTTP 200 metadata response the content-location
URL is read from exactly one fixed field name, `reportUrl`; a 200 body
carrying the URL under that name leads to a Stage B fetch of it, while the
known variants `ReportUrl` and `url` (accepted by the separate ingest
scripts) are not accepted here. -/
theorem c3_theorem (U body : String) (B : List Nat) (rev : Nat → RepEvent)
    (wfuel : Nat) (hU : U ≠ "") (hrev : rev 0 = RepEvent.resp 200 B) :
    process_one "all_downloads" "abc123" goodWorld
      (fun _ => MetaEvent.resp 200 body (some [("reportUrl", U)])) rev wfuel {} 0 =
      some (Outcome.ok U ("all_downloads" ++ "/reports/" ++ "abc123" ++ guess_ext U) B) ∧
    process_one "all_downloads" "abc123" goodWorld
      (fun _ => MetaEvent.resp 200 body (some [("ReportUrl", U)])) rev wfuel {} 0 =
      some Outcome.missingReportUrl ∧
    jGet [("reportUrl", U)] "reportUrl" = some U ∧
    jGet [("ReportUrl", U), ("url", U)] "reportUrl" = none := by
  refine ⟨process_one_good_ok "all_downloads" "abc123" _ rev wfuel body U B rfl hrev hU,
    ?_, rfl, rfl⟩
  have h := fetch_metadata_good_200 (fun _ => MetaEvent.resp 200 body
    (some [("ReportUrl", U)])) wfuel body [("ReportUrl", U)] rfl
  unfold process_one
  rw [h]
  rfl

/-- C3 (witness): the amended theorem applied to a concrete URL. -/
theorem c3_witness :
    process_one "all_downloads" "abc123" goodWorld
      (fun _ => MetaEvent.resp 200 "metabody" (some [("reportUrl", "https://cdn/x.pdf")]))
      c3rev 2 {} 0 =
      some (Outcome.ok "https://cdn/x.pdf"
        ("all_downloads" ++ "/reports/" ++ "abc123" ++ guess_ext "https://cdn/x.pdf") [7]) ∧
    process_one "all_downloads" "abc123" goodWorld
      (fun _ => MetaEvent.resp 200 "metabody" (some [("ReportUrl", "https://cdn/x.pdf")]))
      c3rev 2 {} 0 = some Outcome.missingReportUrl ∧
    jGet [("reportUrl", "https://cdn/x.pdf")] "reportUrl" = some "https://cdn/x.pdf" ∧
    jGet [("ReportUrl", "https://cdn/x.pdf"), ("url", "https://cdn/x.pdf")] "reportUrl" =
      none :=
  c3_theorem "https://cdn/x.pdf" "metabody" [7] c3rev 2 (by decide) rfl

/-! ### Claim C4 -/

def c4mev : Nat → MetaEvent := fun _ => MetaEvent.resp 200 "not json" none

def c4rev : Nat → RepEvent := fun _ => RepEvent.exn

/-- C4 (counterexample): a 200 metadata response whose body is unparseable
JSON is retried — the fetch issues all five requests (`attempts = 5`)
instead of failing immediately on the first one, because `json.loads`
raises inside the `try` block and the exception handler sleeps and
retries. -/
theorem c4_counterexample :
    (fetch_metadata goodWorld c4mev 2 {} 0).map (fun r => (r.status, r.attempts)) =
      some (none, 5) ∧
    process_one "all_downloads" "abc123" goodWorld c4mev c4rev 2 {} 0 =
      some (Outcome.metaFailed none none) := by decide

/-- C4 (amended): a Stage A 200 response with an unparseable JSON body is
treated like a transport error — retried with backoff up to the cap of
five requests, after which the pass fails with no status recorded; a 200
body that parses but lacks the `reportUrl` field fails the pass
immediately after that single request.  In both cases the pass ends in a
metadata-stage failure outcome, so Stage B is never invoked. -/
theorem c4_theorem (body raw root guid : String) (o : JObj) (wfuel : Nat)
    (mev : Nat → MetaEvent) (rev : Nat → RepEvent)
    (hmev : mev 0 = MetaEvent.resp 200 raw (some o))
    (ho : jGet o "reportUrl" = none) (hne : o.isEmpty = false) :
    fetch_metadata goodWorld (fun _ => MetaEvent.resp 200 body none) wfuel {} 0 =
      some ⟨none, none, none, 5, ["tokA", "tokA", "tokA", "tokA", "tokA"], tmA, 11⟩ ∧
    process_one root guid goodWorld (fun _ => MetaEvent.resp 200 body none) rev wfuel {} 0 =
      some (Outcome.metaFailed none none) ∧
    fetch_metadata goodWorld mev wfuel {} 0 =
      some ⟨some 200, some o, some raw, 1, ["tokA"], tmA, 2⟩ ∧
    process_one root guid goodWorld mev rev wfuel {} 0 = some Outcome.missingReportUrl := by
  refine ⟨rfl, rfl, fetch_metadata_good_200 mev wfuel raw o hmev, ?_⟩
  unfold process_one
  simp only [fetch_metadata_good_200 mev wfuel raw o hmev]
  rw [if_neg ?hcond]
  case hcond =>
    rintro (h | h)
    · exact h rfl
    · rw [pyTruthyObj] at h
      rw [hne] at h
      exact absurd h (by decide)
  simp only [Option.getD]
  rw [ho]

/-- C4 (witness): the amended theorem applied to a concrete unparseable
body and a concrete object lacking the field. -/
theorem c4_witness :
    fetch_metadata goodWorld (fun _ => MetaEvent.resp 200 "not json" none) 2 {} 0 =
      some ⟨none, none, none, 5, ["tokA", "tokA", "tokA", "tokA", "tokA"], tmA, 11⟩ ∧
    process_one "all_downloads" "abc123" goodWorld
      (fun _ => MetaEvent.resp 200 "not json" none) c4rev 2 {} 0 =
      some (Outcome.metaFailed none none) ∧
    fetch_metadata goodWorld (fun _ => MetaEvent.resp 200 "metabody" (some [("other", "x")]))
      2 {} 0 =
      some ⟨some 200, some [("other", "x")], some "metabody", 1, ["tokA"], tmA, 2⟩ ∧
    process_one "all_downloads" "abc123" goodWorld
      (fun _ => MetaEvent.resp 200 "metabody" (some [("other", "x")])) c4rev 2 {} 0 =
      some Outcome.missingReportUrl :=
  c4_theorem "not json" "metabody" "all_downloads" "abc123" [("other", "x")] 2
    (fun _ => MetaEvent.resp 200 "metabody" (some [("other", "x")])) c4rev rfl rfl rfl

/-! ### Claim C5 -/

def c5mev : Nat → MetaEvent := fun _ =>
  MetaEvent.resp 200 "metabody" (some [("reportUrl", "https://cdn/x.pdf")])

def c5rev : Nat → RepEvent := fun _ => RepEvent.resp 404 [9]

/-- C5 (counterexample): a Stage B failure with HTTP status 404 produces
the failure record of the call `save_error_json(root, guid,
"Download failed", "report")`: its recorded status code and body are null,
not the content-stage 404 and response body the claim asserts. -/
theorem c5_counterexample :
    process_one "all_downloads" "abc123" goodWorld c5mev c5rev 2 {} 0 =
      some (Outcome.reportFailed "https://cdn/x.pdf" (some 404)) ∧
    errorOf (Outcome.reportFailed "https://cdn/x.pdf" (some 404)) 7 =
      some ⟨"Download failed", "report", none, none, 7⟩ ∧
    (save_error_json "Download failed" "report" none none 7).status_code ≠ some 404 ∧
    (save_error_json "Download failed" "report" none none 7).body = none := by decide

/-- C5 (amended): every terminal failure outcome produces exactly one
structured failure record carrying message, stage, status-code, body and
timestamp fields (and a success produces none); the metadata-fetch failure
record carries the Stage A status and the response body truncated to 1000
characters, but the missing-reportUrl and Stage B records carry null
status and null body — the content-stage status survives only in the job
row, not in the failure record. -/
theorem c5_theorem (st : Option Nat) (body : Option String) (u p : String)
    (c : List Nat) (s : Option Nat) (now : Nat) (b : String) (j : Job)
    (hg : j.guid = "abc123") :
    (errorOf (Outcome.metaFailed st body) now).isSome = true ∧
    (errorOf Outcome.missingReportUrl now).isSome = true ∧
    (errorOf (Outcome.reportFailed u s) now).isSome = true ∧
    errorOf (Outcome.ok u p c) now = none ∧
    errorOf (Outcome.reportFailed u s) now =
      some ⟨"Download failed", "report", none, none, now⟩ ∧
    errorOf Outcome.missingReportUrl now =
      some ⟨"Missing reportUrl", "metadata", none, none, now⟩ ∧
    errorOf (Outcome.metaFailed st (some b)) now =
      some ⟨"Metadata fetch failed", "metadata", st,
        (if b = "" then none else some (String.mk (b.toList.take 1000))), now⟩ ∧
    (∀ r2, errorOf (Outcome.metaFailed st body) now = some r2 →
      r2.time = now ∧ r2.status_code = st ∧
      ∀ b2, r2.body = some b2 → b2.length ≤ 1000) ∧
    applyOutcome [j] "abc123" (Outcome.reportFailed u s) now =
      [{ j with status := JStatus.failed, http_status_report := s, updated_at := now }] := by
  refine ⟨rfl, rfl, rfl, rfl, rfl, rfl, rfl, ?_, ?_⟩
  · intro r2 h
    match body with
    | none =>
      have h2 : r2 = ⟨"Metadata fetch failed", "metadata", st, none, now⟩ :=
        (Option.some.inj h).symm
      subst h2
      exact ⟨rfl, rfl, fun b2 hb => absurd hb (by simp)⟩
    | some b3 =>
      by_cases hb3 : b3 = ""
      · subst hb3
        have h2 : r2 = ⟨"Metadata fetch failed", "metadata", st, none, now⟩ :=
          (Option.some.inj h).symm
        subst h2
        exact ⟨rfl, rfl, fun b2 hb => absurd hb (by simp)⟩
      · have h2 : r2 = ⟨"Metadata fetch failed", "metadata", st,
            some (String.mk (b3.toList.take 1000)), now⟩ := by
          rw [show errorOf (Outcome.metaFailed st (some b3)) now =
            some ⟨"Metadata fetch failed", "metadata", st,
              (if b3 = "" then none else some (String.mk (b3.toList.take 1000))), now⟩
            from rfl, if_neg hb3] at h
          exact (Option.some.inj h).symm
        subst h2
        refine ⟨rfl, rfl, fun b2 hb => ?_⟩
        have h3 : b2 = String.mk (b3.toList.take 1000) := (Option.some.inj hb).symm
        subst h3
        rw [String.length_mk]
        exact le_trans (List.length_take_le 1000 b3.toList) (le_refl 1000)
  · simp only [applyOutcome, db_mark, List.map]
    rw [if_pos hg]

/-- C5 (witness): the amended theorem applied at a concrete Stage B
failure and a concrete metadata failure record. -/
theorem c5_witness :
    errorOf (Outcome.reportFailed "https://cdn/y.pdf" (some 502)) 11 =
      some ⟨"Download failed", "report", none, none, 11⟩ ∧
    errorOf (Outcome.metaFailed (some 418) (some "teapot")) 11 =
      some ⟨"Metadata fetch failed", "metadata", some 418,
        (if "teapot" = "" then none
         else some (String.mk ("teapot".toList.take 1000))), 11⟩ ∧
    applyOutcome [c2Job0] "abc123" (Outcome.reportFailed "https://cdn/y.pdf" (some 502)) 11 =
      [{ c2Job0 with status := JStatus.failed, http_status_report := some 502, updated_at := 11 }] := by
  have h := c5_theorem (some 418) (some "teapot") "https://cdn/y.pdf" "p" [] (some 502)
    11 "teapot" c2Job0 rfl
  exact ⟨h.2.2.2.2.1, h.2.2.2.2.2.2.1, h.2.2.2.2.2.2.2.2⟩

/-! ### Claim C6 -/

def c6rev : Nat → RepEvent := fun _ => RepEvent.resp 401 []

def c6mev : Nat → MetaEvent := fun _ => MetaEvent.resp 401 "denied" none

/-- C6 (code bug): in `fetch_report` the 401 handler stores
`headers.get("Authorization")` — the string `"Bearer tokA"` — as the
credential to rotate away from, and `wait_for_update` compares it against
the bare token `"tokA"`; the two always differ, so the wait returns at
once with the very token that produced the 401 and every one of the five
attempts carries the identical `Authorization` header.  By contrast
`fetch_metadata` passes the bare token, and under an unrotated credential
its wait correctly keeps suspending (modelled by the fuel running out). -/
theorem c6_theorem :
    fetch_report goodWorld c6rev 3 true {} 0 =
      some ⟨none, none, 5,
        [some "Bearer tokA", some "Bearer tokA", some "Bearer tokA",
         some "Bearer tokA", some "Bearer tokA"]⟩ ∧
    tm_wait_for_update goodWorld (some "Bearer tokA") tmA 0 3 = some ("tokA", tmA, 1) ∧
    tm_wait_for_update goodWorld (some "tokA") tmA 0 3 = none ∧
    fetch_metadata goodWorld c6mev 3 {} 0 = none := by decide

/-! ### Claim C7 -/

/-- C7: `db_next_batch` returns at most `n` rows, each with status
`pending` or `failed` and `tries` strictly below the retry cap, ordered by
`updated_at` ascending; a job whose `tries` has reached the cap is never
among the selected rows. -/
theorem c7_theorem (jobs : List Job) (n : Nat) :
    (db_next_batch_jobs jobs n).length ≤ n ∧
    List.Sorted updLE (db_next_batch_jobs jobs n) ∧
    (∀ j, j ∈ db_next_batch_jobs jobs n →
      (j.status = JStatus.pending ∨ j.status = JStatus.failed) ∧ j.tries < MAX_RETRIES) ∧
    (∀ j, j ∈ jobs → MAX_RETRIES ≤ j.tries → j ∉ db_next_batch_jobs jobs n) ∧
    db_next_batch jobs n =
      (db_next_batch_jobs jobs n).map (fun j => (j.guid, j.url, j.tries)) := by
  have hmem : ∀ j, j ∈ db_next_batch_jobs jobs n →
      (j.status = JStatus.pending ∨ j.status = JStatus.failed) ∧ j.tries < MAX_RETRIES := by
    intro j hj
    have hj2 : j ∈ List.insertionSort updLE (jobs.filter claimable) :=
      List.mem_of_mem_take hj
    have hj3 : j ∈ jobs.filter claimable := (List.mem_insertionSort updLE).1 hj2
    have hj4 := (List.mem_filter.1 hj3).2
    simp only [claimable, Bool.and_eq_true, Bool.or_eq_true, decide_eq_true_eq] at hj4
    exact hj4
  refine ⟨List.length_take_le n _, ?_, hmem, ?_, rfl⟩
  · exact List.Pairwise.sublist (List.take_sublist n _)
      (List.sorted_insertionSort updLE _)
  · intro j _ hcap hj
    exact Nat.lt_irrefl _ (Nat.lt_of_lt_of_le (hmem j hj).2 hcap)

def c7jA : Job := ⟨"a", "ua", JStatus.pending, 5, none, none, none, none, 0⟩

def c7jB : Job := ⟨"b", "ub", JStatus.pending, 0, none, none, none, none, 5⟩

def c7jC : Job := ⟨"c", "uc", JStatus.failed, 2, none, none, none, none, 1⟩

def c7jobs : List Job := [c7jA, c7jB, c7jC]

/-- C7 (witness): the theorem applied to a concrete ledger in which the
exhausted job `c7jA` is skipped and the two claimable jobs come back
oldest-first. -/
theorem c7_witness :
    (db_next_batch_jobs c7jobs 2).length ≤ 2 ∧
    List.Sorted updLE (db_next_batch_jobs c7jobs 2) ∧
    ((c7jC.status = JStatus.pending ∨ c7jC.status = JStatus.failed) ∧
      c7jC.tries < MAX_RETRIES) ∧
    c7jA ∉ db_next_batch_jobs c7jobs 2 ∧
    db_next_batch c7jobs 2 =
      (db_next_batch_jobs c7jobs 2).map (fun j => (j.guid, j.url, j.tries)) :=
  ⟨(c7_theorem c7jobs 2).1, (c7_theorem c7jobs 2).2.1,
    (c7_theorem c7jobs 2).2.2.1 c7jC (by decide),
    (c7_theorem c7jobs 2).2.2.2.1 c7jA (by decide) (by decide),
    (c7_theorem c7jobs 2).2.2.2.2⟩

/-! ### Claim C8 -/

/-- C8: end-to-end success — when Stage A answers 200 with body
field `reportUrl = U` and Stage B answers 200 with bytes `B`, the pass
returns the success outcome, the artifact written is exactly `B` at the
path `root/reports/<guid><ext>` where `<ext> = guess_ext U`, the job row
becomes `done` with `size_bytes` equal to the byte length of `B`, the path
decomposes as a prefix followed by `guid ++ guess_ext U`, and `guess_ext`
lowercases a `.pdf`-style suffix and falls back to `.json` when no 1-5
character alphanumeric extension is present. -/
theorem c8_theorem (root guid body U : String) (B : List Nat)
    (rev : Nat → RepEvent) (wfuel now : Nat) (j : Job)
    (hU : U ≠ "") (hrev : rev 0 = RepEvent.resp 200 B) (hg : j.guid = guid) :
    process_one root guid goodWorld
      (fun _ => MetaEvent.resp 200 body (some [("reportUrl", U)])) rev wfuel {} 0 =
      some (Outcome.ok U (root ++ "/reports/" ++ guid ++ guess_ext U) B) ∧
    artifactOf (Outcome.ok U (root ++ "/reports/" ++ guid ++ guess_ext U) B) =
      some (root ++ "/reports/" ++ guid ++ guess_ext U, B) ∧
    applyOutcome [j] guid
        (Outcome.ok U (root ++ "/reports/" ++ guid ++ guess_ext U) B) now =
      [{ j with status := JStatus.done, path := some (root ++ "/reports/" ++ guid ++ guess_ext U), size_bytes := some B.length, updated_at := now }] ∧
    root ++ "/reports/" ++ guid ++ guess_ext U =
      (root ++ "/reports/") ++ (guid ++ guess_ext U) ∧
    guess_ext "https://cdn/x.pdf" = ".pdf" ∧
    guess_ext "https://cdn/x.PDF" = ".pdf" ∧
    guess_ext "https://host/reports/abc123" = ".json" ∧
    "abc123" ++ guess_ext "https://cdn/x.pdf" = "abc123.pdf" := by
  refine ⟨process_one_good_ok root guid _ rev wfuel body U B rfl hrev hU, rfl, ?_,
    String.append_assoc _ _ _, by decide, by decide, by decide, by decide⟩
  simp only [applyOutcome, db_mark, List.map]
  rw [if_pos hg]

def c8rev : Nat → RepEvent := fun _ => RepEvent.resp 200 [10, 20, 30]

/-- C8 (witness): the theorem applied to job `abc123` with content URL
`https://cdn/x.pdf` and a three-byte payload. -/
theorem c8_witness :
    process_one "all_downloads" "abc123" goodWorld
      (fun _ => MetaEvent.resp 200 "metabody"
        (some [("reportUrl", "https://cdn/x.pdf")])) c8rev 2 {} 0 =
      some (Outcome.ok "https://cdn/x.pdf"
        ("all_downloads" ++ "/reports/" ++ "abc123" ++ guess_ext "https://cdn/x.pdf")
        [10, 20, 30]) ∧
    artifactOf (Outcome.ok "https://cdn/x.pdf"
        ("all_downloads" ++ "/reports/" ++ "abc123" ++ guess_ext "https://cdn/x.pdf")
        [10, 20, 30]) =
      some ("all_downloads" ++ "/reports/" ++ "abc123" ++ guess_ext "https://cdn/x.pdf",
        [10, 20, 30]) ∧
    applyOutcome [c2Job0] "abc123"
        (Outcome.ok "https://cdn/x.pdf"
          ("all_downloads" ++ "/reports/" ++ "abc123" ++ guess_ext "https://cdn/x.pdf")
          [10, 20, 30]) 9 =
      [{ c2Job0 with status := JStatus.done, path := some ("all_downloads" ++ "/reports/" ++ "abc123" ++ guess_ext "https://cdn/x.pdf"), size_bytes := some ([10, 20, 30] : List Nat).length, updated_at := 9 }] ∧
    "all_downloads" ++ "/reports/" ++ "abc123" ++ guess_ext "https://cdn/x.pdf" =
      ("all_downloads" ++ "/reports/") ++ ("abc123" ++ guess_ext "https://cdn/x.pdf") ∧
    guess_ext "https://cdn/x.pdf" = ".pdf" ∧
    guess_ext "https://cdn/x.PDF" = ".pdf" ∧
    guess_ext "https://host/reports/abc123" = ".json" ∧
    "abc123" ++ guess_ext "https://cdn/x.pdf" = "abc123.pdf" :=
  c8_theorem "all_downloads" "abc123" "metabody" "https://cdn/x.pdf" [10, 20, 30]
    c8rev 2 9 c2Job0 (by decide) rfl rfl

/-! ### Claim C9 -/

/-- C9: `db_upsert_job` is idempotent on the job identifier — the first
call for an absent id appends exactly one `pending` row with `tries = 0`,
a call for a present id changes nothing (regardless of the new url or
timestamp), repeating a call is a no-op, and the number of rows carrying a
given id never grows beyond one. -/
theorem c9_theorem (jobs : List Job) (g u u2 : String) (now now2 : Nat) :
    ((jobs.any (fun j => j.guid = g)) = false →
      db_upsert_job jobs g u now = jobs ++
        [{ guid := g, url := u, status := JStatus.pending, tries := 0,
            updated_at := now }]) ∧
    ((jobs.any (fun j => j.guid = g)) = true → db_upsert_job jobs g u now = jobs) ∧
    db_upsert_job (db_upsert_job jobs g u now) g u2 now2 = db_upsert_job jobs g u now ∧
    (jobs.countP (fun j => j.guid = g) ≤ 1 →
      (db_upsert_job jobs g u now).countP (fun j => j.guid = g) ≤ 1) := by
  refine ⟨?_, ?_, ?_, ?_⟩
  · intro h
    unfold db_upsert_job
    rw [if_neg (by simp [h])]
  · intro h
    unfold db_upsert_job
    rw [if_pos h]
  · cases hb : jobs.any (fun j => j.guid = g) with
    | true =>
      have h1 : db_upsert_job jobs g u now = jobs := by
        unfold db_upsert_job; rw [if_pos hb]
      rw [h1]
      unfold db_upsert_job; rw [if_pos hb]
    | false =>
      have h1 : db_upsert_job jobs g u now = jobs ++
          [{ guid := g, url := u, status := JStatus.pending, tries := 0,
              updated_at := now }] := by
        unfold db_upsert_job; rw [if_neg (by simp [hb])]
      rw [h1]
      unfold db_upsert_job
      rw [if_pos (by simp [List.any_append, hb])]
  · intro h
    cases hb : jobs.any (fun j => j.guid = g) with
    | true =>
      have h1 : db_upsert_job jobs g u now = jobs := by
        unfold db_upsert_job; rw [if_pos hb]
      rw [h1]; exact h
    | false =>
      have h1 : db_upsert_job jobs g u now = jobs ++
          [{ guid := g, url := u, status := JStatus.pending, tries := 0,
              updated_at := now }] := by
        unfold db_upsert_job; rw [if_neg (by simp [hb])]
      rw [h1, List.countP_append]
      have h0 : jobs.countP (fun j => decide (j.guid = g)) = 0 := by
        rw [List.countP_eq_zero]
        intro a ha
        rw [List.any_eq_false] at hb
        exact hb a ha
      rw [h0]
      simp

/-- C9 (witness): inserting `abc123` into an empty ledger adds one pending
row; inserting it again with a different url and time changes nothing, and
the id never occupies two rows. -/
theorem c9_witness :
    db_upsert_job [] "abc123" "u1" 3 = [] ++
      [{ guid := "abc123", url := "u1", status := JStatus.pending, tries := 0,
          updated_at := 3 }] ∧
    db_upsert_job (db_upsert_job [] "abc123" "u1" 3) "abc123" "u2" 9 =
      db_upsert_job [] "abc123" "u1" 3 ∧
    (db_upsert_job [] "abc123" "u1" 3).countP (fun j => j.guid = "abc123") ≤ 1 :=
  ⟨(c9_theorem [] "abc123" "u1" "u2" 3 9).1 (by decide),
    (c9_theorem [] "abc123" "u1" "u2" 3 9).2.2.1,
    (c9_theorem [] "abc123" "u1" "u2" 3 9).2.2.2 (by decide)⟩

/-! ### Claim C10 -/

/-- C10: CSV seeding enqueues a job for every distinct non-empty cell of
the URL column whose stripped text has a non-empty final path segment,
with no validity check on the cell — in particular the literal header cell
`url` parses to path `url`, whose last segment is `url`, so the header row
itself is enqueued as a job with identifier `url` and source URL `url`;
an arbitrary non-URL string is enqueued likewise. -/
theorem c10_theorem (s g : String) (now : Nat)
    (h1 : pyStrip s ≠ "") (h2 : extract_guid_from_url (pyStrip s) = some g) :
    seed_jobs_from_csv [] [[s]] 0 now =
      ([{ guid := g, url := pyStrip s, status := JStatus.pending, tries := 0,
          updated_at := now }], 1) ∧
    extract_guid_from_url "url" = some "url" ∧
    seed_jobs_from_csv [] [["url"], ["https://host/reports/abc123"]] 0 5 =
      ([{ guid := "url", url := "url", status := JStatus.pending, tries := 0,
          updated_at := 5 },
        { guid := "abc123", url := "https://host/reports/abc123",
          status := JStatus.pending, tries := 0, updated_at := 5 }], 2) ∧
    extract_guid_from_url "not a url!!" = some "not a url!!" := by
  refine ⟨?_, by decide, by decide, by decide⟩
  have hno : ¬(pyStrip s = "" ∨ pyStrip s ∈ ([] : List String)) := by
    rintro (h | h)
    · exact h1 h
    · exact absurd h (List.not_mem_nil _)
  have hstep : seed_step 0 now ([], [], 0) [s] =
      (db_upsert_job [] g (pyStrip s) now, [pyStrip s], 1) := by
    show (if pyStrip s = "" ∨ pyStrip s ∈ ([] : List String) then
        (([] : List Job), ([] : List String), (0 : Nat))
      else
        match extract_guid_from_url (pyStrip s) with
        | none => (([] : List Job), ([] : List String), (0 : Nat))
        | some guid => (db_upsert_job [] guid (pyStrip s) now, [pyStrip s], 0 + 1)) =
      (db_upsert_job [] g (pyStrip s) now, [pyStrip s], 1)
    rw [if_neg hno, h2]
  have hsj : seed_jobs_from_csv [] [[s]] 0 now =
      ((seed_step 0 now ([], [], 0) [s]).1, (seed_step 0 now ([], [], 0) [s]).2.2) := rfl
  rw [hsj, hstep]
  rfl

/-- C10 (witness): the theorem applied to the header cell (with
surrounding whitespace, which seeding strips). -/
theorem c10_witness :
    seed_jobs_from_csv [] [[" url "]] 0 7 =
      ([{ guid := "url", url := pyStrip " url ", status := JStatus.pending, tries := 0,
          updated_at := 7 }], 1) ∧
    extract_guid_from_url "url" = some "url" ∧
    seed_jobs_from_csv [] [["url"], ["https://host/reports/abc123"]] 0 5 =
      ([{ guid := "url", url := "url", status := JStatus.pending, tries := 0,
          updated_at := 5 },
        { guid := "abc123", url := "https://host/reports/abc123",
          status := JStatus.pending, tries := 0, updated_at := 5 }], 2) ∧
    extract_guid_from_url "not a url!!" = some "not a url!!" :=
  c10_theorem " url " "url" 7 (by decide) (by decide)

end WBQ
